import Mathlib

/-!
Verification of the hand-rolled OAuth 2.1 authorization subsystem of the
DEVOPS_NOMARK repository (`devops-mcp/devops_mcp/oauth.py` together with the
transport gate `check_auth` of `devops_mcp/__main__.py`).

The Python module keeps four in-memory dicts (registered clients,
authorization codes, access tokens, refresh tokens).  We embed them as
association lists inside an explicit `OAuthState`, thread the state through
each operation, and pass the clock (`datetime.utcnow()`) and the random
token values produced by `secrets.token_urlsafe(32)` as explicit arguments.
Timestamps are modelled in whole seconds as `Nat`.
-/

namespace DevopsMCP

/-- `d.get(k)` on a Python dict modelled as an association list. -/
def dictGet {α : Type} (m : List (String × α)) (k : String) : Option α :=
  (m.find? (fun p => p.1 = k)).map Prod.snd

/-- `del d[k]` on a Python dict modelled as an association list. -/
def dictDel {α : Type} (m : List (String × α)) (k : String) : List (String × α) :=
  m.filter (fun p => ¬ (p.1 = k))

/-- `d[k] = v` on a Python dict modelled as an association list. -/
def dictSet {α : Type} (m : List (String × α)) (k : String) (v : α) : List (String × α) :=
  (k, v) :: dictDel m k

/-- Python truthiness of an `Optional[str]`: `None` and `""` are falsy. -/
def optTruthy : Option String → Bool
  | none => false
  | some s => s ≠ ""

/-! ### SHA-256 (FIPS 180-4), over byte lists, words as `Nat` mod `2^32`

Faithful rendering of what `hashlib.sha256` computes, needed for the
PKCE `S256` branch of `exchange_code_for_tokens`. -/

/-- Truncate to a 32-bit word. -/
def wmask (x : Nat) : Nat := x % 4294967296

/-- 32-bit right rotation. -/
def rotr32 (n x : Nat) : Nat := wmask ((x >>> n) ||| (x <<< (32 - n)))

def bigSigma0 (x : Nat) : Nat := rotr32 2 x ^^^ rotr32 13 x ^^^ rotr32 22 x

def bigSigma1 (x : Nat) : Nat := rotr32 6 x ^^^ rotr32 11 x ^^^ rotr32 25 x

def smallSigma0 (x : Nat) : Nat := rotr32 7 x ^^^ rotr32 18 x ^^^ (x >>> 3)

def smallSigma1 (x : Nat) : Nat := rotr32 17 x ^^^ rotr32 19 x ^^^ (x >>> 10)

def shaCh (x y z : Nat) : Nat := (x &&& y) ^^^ ((x ^^^ 4294967295) &&& z)

def shaMaj (x y z : Nat) : Nat := (x &&& y) ^^^ (x &&& z) ^^^ (y &&& z)

/-- The 64 SHA-256 round constants. -/
def sha256K : List Nat :=
  [1116352408, 1899447441, 3049323471, 3921009573, 961987163, 1508970993,
   2453635748, 2870763221, 3624381080, 310598401, 607225278, 1426881987,
   1925078388, 2162078206, 2614888103, 3248222580, 3835390401, 4022224774,
   264347078, 604807628, 770255983, 1249150122, 1555081692, 1996064986,
   2554220882, 2821834349, 2952996808, 3210313671, 3336571891, 3584528711,
   113926993, 338241895, 666307205, 773529912, 1294757372, 1396182291,
   1695183700, 1986661051, 2177026350, 2456956037, 2730485921, 2820302411,
   3259730800, 3345764771, 3516065817, 3600352804, 4094571909, 275423344,
   430227734, 506948616, 659060556, 883997877, 958139571, 1322822218,
   1537002063, 1747873779, 1955562222, 2024104815, 2227730452, 2361852424,
   2428436474, 2756734187, 3204031479, 3329325298]

/-- The SHA-256 initial hash value. -/
def sha256Init : List Nat :=
  [1779033703, 3144134277, 1013904242, 2773480762, 1359893119, 2600822924,
   528734635, 1541459225]

/-- Big-endian byte serialisation of `n` into `len` bytes. -/
def toBytesBE (n len : Nat) : List Nat :=
  (List.range len).map (fun i => (n >>> (8 * (len - 1 - i))) % 256)

/-- SHA-256 message padding: append `0x80`, zero bytes up to 56 mod 64,
then the bit length as 8 big-endian bytes. -/
def sha256Pad (msg : List Nat) : List Nat :=
  let k := (119 - (msg.length % 64)) % 64
  msg ++ [0x80] ++ List.replicate k 0 ++ toBytesBE (8 * msg.length) 8

/-- Group bytes into big-endian 32-bit words. -/
def bytesToWords : List Nat → List Nat
  | a :: b :: c :: d :: rest => (((a * 256 + b) * 256 + c) * 256 + d) :: bytesToWords rest
  | _ => []

/-- Extend the 16 message-schedule words by `k` further words. -/
def extendW (w : List Nat) : Nat → List Nat
  | 0 => w
  | k + 1 =>
    let n := w.length
    let wt := wmask (smallSigma1 (w.getD (n - 2) 0) + w.getD (n - 7) 0 +
                     smallSigma0 (w.getD (n - 15) 0) + w.getD (n - 16) 0)
    extendW (w ++ [wt]) k

/-- One SHA-256 compression round; the state is `[a,b,c,d,e,f,g,h]`. -/
def sha256Round (s : List Nat) (kw : Nat × Nat) : List Nat :=
  match s with
  | [a, b, c, d, e, f, g, h] =>
    let t1 := wmask (h + bigSigma1 e + shaCh e f g + kw.1 + kw.2)
    let t2 := wmask (bigSigma0 a + shaMaj a b c)
    [wmask (t1 + t2), a, b, c, wmask (d + t1), e, f, g]
  | _ => s

/-- Process one 64-byte block. -/
def sha256Block (h : List Nat) (block : List Nat) : List Nat :=
  let w := extendW (bytesToWords block) 48
  let s := (sha256K.zip w).foldl sha256Round h
  List.zipWith (fun x y => wmask (x + y)) h s

/-- Split a byte list into 64-byte chunks. -/
def chunks64 (l : List Nat) : List (List Nat) :=
  if h : l = [] then []
  else
    have : l.length - 64 < l.length := by
      cases l with
      | nil => exact absurd rfl h
      | cons a t => simp [Nat.sub_lt_of_pos_le]; omega
    l.take 64 :: chunks64 (l.drop 64)
termination_by l.length

/-- SHA-256 digest of a byte list, as the list of its 32 digest bytes. -/
def sha256 (msg : List Nat) : List Nat :=
  let hs := (chunks64 (sha256Pad msg)).foldl sha256Block sha256Init
  hs.foldr (fun w acc => toBytesBE w 4 ++ acc) []

/-! ### Base64url without padding (`base64.urlsafe_b64encode(...).rstrip(b"=")`) -/

/-- The urlsafe base64 alphabet. -/
def b64urlChar (n : Nat) : Char :=
  if n < 26 then Char.ofNat (65 + n)
  else if n < 52 then Char.ofNat (97 + (n - 26))
  else if n < 62 then Char.ofNat (48 + (n - 52))
  else if n = 62 then '-'
  else '_'

/-- Urlsafe base64 encoding of a byte list with the `=` padding stripped. -/
def b64urlNoPad : List Nat → List Char
  | [] => []
  | [a] => [b64urlChar (a / 4), b64urlChar (a % 4 * 16)]
  | [a, b] => [b64urlChar (a / 4), b64urlChar (a % 4 * 16 + b / 16), b64urlChar (b % 16 * 4)]
  | a :: b :: c :: rest =>
    b64urlChar (a / 4) :: b64urlChar (a % 4 * 16 + b / 16) ::
    b64urlChar (b % 16 * 4 + c / 64) :: b64urlChar (c % 64) :: b64urlNoPad rest

/-- UTF-8 bytes of a string (`str.encode()` in Python). -/
def utf8Bytes (s : String) : List Nat := s.toUTF8.toList.map (fun b => b.toNat)

/-- `base64.urlsafe_b64encode(hashlib.sha256(v.encode()).digest()).rstrip(b"=").decode()`:
the PKCE S256 challenge derived from a code verifier. -/
def s256_challenge (code_verifier : String) : String :=
  String.mk (b64urlNoPad (sha256 (utf8Bytes code_verifier)))

/-! ### Data model: the entries of the four in-memory stores -/

/-- The dict stored in `_authorization_codes[code]` by `create_authorization_code`.
`code_challenge`/`code_challenge_method` come from optional query parameters, so
they are `Option String` (Python `None` ↦ `none`). -/
structure AuthCodeData where
  client_id : String
  redirect_uri : String
  scope : String
  code_challenge : Option String
  code_challenge_method : Option String
  created_at : Nat
  expires_at : Nat
deriving Repr, DecidableEq

/-- The dict stored in `_access_tokens[token]`. -/
structure AccessTokenData where
  client_id : String
  scope : String
  created_at : Nat
  expires_at : Nat
deriving Repr, DecidableEq

/-- The dict stored in `_refresh_tokens[token]`. -/
structure RefreshTokenData where
  client_id : String
  scope : String
  created_at : Nat
deriving Repr, DecidableEq

/-- The token-endpoint success response built by `exchange_code_for_tokens`
and `refresh_access_token`. -/
structure TokenResponse where
  access_token : String
  token_type : String
  expires_in : Nat
  refresh_token : String
  scope : String
deriving Repr, DecidableEq

/-- The mutable module-level state: `_authorization_codes`, `_access_tokens`,
`_refresh_tokens` (the client registry is not involved in the verified claims). -/
structure OAuthState where
  authorization_codes : List (String × AuthCodeData)
  access_tokens : List (String × AccessTokenData)
  refresh_tokens : List (String × RefreshTokenData)
deriving Repr, DecidableEq

/-! ### Operations -/

/-- `create_authorization_code(client_id, redirect_uri, scope, code_challenge,
code_challenge_method)`.  The random `secrets.token_urlsafe(32)` draw and the
clock are explicit arguments; `expires_at = now + 10 minutes`. -/
def create_authorization_code (st : OAuthState) (now : Nat) (code : String)
    (client_id redirect_uri scope : String)
    (code_challenge code_challenge_method : Option String) : String × OAuthState :=
  let entry : AuthCodeData :=
    { client_id := client_id, redirect_uri := redirect_uri, scope := scope,
      code_challenge := code_challenge, code_challenge_method := code_challenge_method,
      created_at := now, expires_at := now + 600 }
  (code, { st with authorization_codes := dictSet st.authorization_codes code entry })

/-- The PKCE block of `exchange_code_for_tokens`: returns `true` exactly when
one of its early `return None`s fires.  A challenge was recorded when
`auth_code.get("code_challenge")` is truthy; `if not code_verifier` treats
`None` and `""` as missing; the method selects the expected value which is
compared to the stored challenge. -/
def pkce_check_fails (auth_code : AuthCodeData) (code_verifier : Option String) : Bool :=
  if optTruthy auth_code.code_challenge then
    if ¬ optTruthy code_verifier then true
    else
      let expected :=
        if auth_code.code_challenge_method = some "S256" then
          s256_challenge (code_verifier.getD "")
        else
          code_verifier.getD ""
      expected ≠ auth_code.code_challenge.getD ""
  else false

/-- `exchange_code_for_tokens(code, client_id, redirect_uri, code_verifier)`.
`new_access`/`new_refresh` are the two `secrets.token_urlsafe(32)` draws made
on the success path.  Returns the Python result (`None` or the token dict)
paired with the state of the module after the call. -/
def exchange_code_for_tokens (st : OAuthState) (now : Nat)
    (new_access new_refresh : String)
    (code client_id redirect_uri : String) (code_verifier : Option String) :
    Option TokenResponse × OAuthState :=
  match dictGet st.authorization_codes code with
  | none => (none, st)
  | some auth_code =>
    if auth_code.client_id ≠ client_id then (none, st)
    else if auth_code.redirect_uri ≠ redirect_uri then (none, st)
    else if auth_code.expires_at < now then
      (none, { st with authorization_codes := dictDel st.authorization_codes code })
    else if pkce_check_fails auth_code code_verifier then (none, st)
    else
      let st1 := { st with authorization_codes := dictDel st.authorization_codes code }
      let expires_in := 3600
      let at_entry : AccessTokenData :=
        { client_id := client_id, scope := auth_code.scope,
          created_at := now, expires_at := now + expires_in }
      let rt_entry : RefreshTokenData :=
        { client_id := client_id, scope := auth_code.scope, created_at := now }
      let st2 :=
        { st1 with
          access_tokens := dictSet st1.access_tokens new_access at_entry,
          refresh_tokens := dictSet st1.refresh_tokens new_refresh rt_entry }
      (some { access_token := new_access, token_type := "Bearer", expires_in := expires_in,
              refresh_token := new_refresh, scope := auth_code.scope }, st2)

/-- `refresh_access_token(refresh_token, client_id)`.  `new_access` is the
`secrets.token_urlsafe(32)` draw made on the success path. -/
def refresh_access_token (st : OAuthState) (now : Nat) (new_access : String)
    (refresh_token client_id : String) : Option TokenResponse × OAuthState :=
  match dictGet st.refresh_tokens refresh_token with
  | none => (none, st)
  | some token_data =>
    if token_data.client_id ≠ client_id then (none, st)
    else
      let expires_in := 3600
      let at_entry : AccessTokenData :=
        { client_id := client_id, scope := token_data.scope,
          created_at := now, expires_at := now + expires_in }
      (some { access_token := new_access, token_type := "Bearer", expires_in := expires_in,
              refresh_token := refresh_token, scope := token_data.scope },
       { st with access_tokens := dictSet st.access_tokens new_access at_entry })

/-- `validate_access_token(token)`. -/
def validate_access_token (st : OAuthState) (now : Nat) (token : String) :
    Option AccessTokenData × OAuthState :=
  match dictGet st.access_tokens token with
  | none => (none, st)
  | some token_data =>
    if token_data.expires_at < now then
      (none, { st with access_tokens := dictDel st.access_tokens token })
    else (some token_data, st)

/-- `check_auth(request)` from `__main__.py`: `auth_token` is the configured
static token (`MCP_AUTH_TOKEN` / `--auth-token`, an `Optional[str]`),
`auth_header` is `request.headers.get("Authorization", "")`.  The eviction
`validate_access_token` may perform is part of the resulting state. -/
def check_auth (st : OAuthState) (now : Nat) (auth_token : Option String)
    (auth_header : String) : Bool × OAuthState :=
  if auth_header.startsWith "Bearer " then
    let token := auth_header.drop 7
    let r := validate_access_token st now token
    if r.1.isSome then (true, r.2)
    else if optTruthy auth_token ∧ token = auth_token.getD "" then (true, r.2)
    else (false, r.2)
  else if ¬ optTruthy auth_token then (true, st)
  else (false, st)

/-! ### Dictionary lemmas -/

theorem dictGet_nil {α : Type} (k : String) : dictGet ([] : List (String × α)) k = none := rfl

theorem dictGet_cons {α : Type} (p : String × α) (t : List (String × α)) (k : String) :
    dictGet (p :: t) k = if p.1 = k then some p.2 else dictGet t k := by
  by_cases h : p.1 = k <;> simp [dictGet, List.find?, h]

theorem dictDel_cons {α : Type} (p : String × α) (t : List (String × α)) (k : String) :
    dictDel (p :: t) k = if p.1 = k then dictDel t k else p :: dictDel t k := by
  by_cases h : p.1 = k <;> simp [dictDel, List.filter_cons, h]

theorem dictGet_del_self {α : Type} (m : List (String × α)) (k : String) :
    dictGet (dictDel m k) k = none := by
  induction m with
  | nil => rfl
  | cons p t ih =>
    rw [dictDel_cons]
    by_cases h : p.1 = k
    · simpa [h] using ih
    · rw [if_neg h, dictGet_cons, if_neg h]; exact ih

theorem dictGet_del_ne {α : Type} (m : List (String × α)) (k j : String) (h : j ≠ k) :
    dictGet (dictDel m k) j = dictGet m j := by
  induction m with
  | nil => rfl
  | cons p t ih =>
    rw [dictDel_cons, dictGet_cons]
    by_cases hp : p.1 = k
    · rw [if_pos hp, ih, if_neg (by rw [hp]; exact fun e => h e.symm)]
    · rw [if_neg hp, dictGet_cons]
      by_cases hj : p.1 = j
      · rw [if_pos hj, if_pos hj]
      · rw [if_neg hj, if_neg hj, ih]

theorem dictGet_set_self {α : Type} (m : List (String × α)) (k : String) (v : α) :
    dictGet (dictSet m k v) k = some v := by
  rw [dictSet, dictGet_cons, if_pos rfl]

theorem dictGet_set_ne {α : Type} (m : List (String × α)) (k j : String) (v : α) (h : j ≠ k) :
    dictGet (dictSet m k v) j = dictGet m j := by
  rw [dictSet, dictGet_cons, if_neg (fun e => h e.symm), dictGet_del_ne m k j h]

/-- A code absent from the store makes `exchange_code_for_tokens` fail with
the state untouched (the `if not auth_code: return None` path). -/
theorem exchange_absent (st : OAuthState) (now : Nat) (na nr code cid ru : String)
    (cv : Option String) (h : dictGet st.authorization_codes code = none) :
    exchange_code_for_tokens st now na nr code cid ru cv = (none, st) := by
  unfold exchange_code_for_tokens
  rw [h]

/-! ### Claim theorems -/

/-- C6: `exchange_code_for_tokens` returns `None` whenever the supplied
`client_id` differs from the one bound to the code, or the supplied
`redirect_uri` differs from the bound one, under exact string comparison
(and the state is untouched); no expiry or PKCE hypothesis is needed. -/
theorem exchange_mismatch_rejected (st : OAuthState) (now : Nat)
    (na nr code cid ru : String) (cv : Option String) (r : AuthCodeData)
    (hg : dictGet st.authorization_codes code = some r)
    (hne : r.client_id ≠ cid ∨ r.redirect_uri ≠ ru) :
    exchange_code_for_tokens st now na nr code cid ru cv = (none, st) := by
  unfold exchange_code_for_tokens
  rw [hg]
  rcases hne with h | h
  · simp [h]
  · by_cases h1 : r.client_id ≠ cid
    · simp [h1]
    · simp [h1, h]

/-- A concrete unexpired authorization-code entry with a plain PKCE challenge,
bound to client `good-client`, used by witnesses. -/
def entryPlain : AuthCodeData :=
  { client_id := "good-client", redirect_uri := "https://app/cb",
    scope := "mcp:tools", code_challenge := some "v1",
    code_challenge_method := some "plain", created_at := 0, expires_at := 600 }

/-- A store holding only `("c1", entryPlain)`, used by witnesses. -/
def stPlain : OAuthState :=
  { authorization_codes := [("c1", entryPlain)], access_tokens := [], refresh_tokens := [] }

/-- C6 witness: a concrete unexpired code with a correct PKCE verifier is
still rejected when the supplied client differs from the bound one. -/
theorem exchange_mismatch_rejected_witness :
    exchange_code_for_tokens stPlain 10 "at1" "rt1" "c1" "evil-client" "https://app/cb"
      (some "v1") = (none, stPlain) :=
  exchange_mismatch_rejected stPlain 10 "at1" "rt1" "c1" "evil-client" "https://app/cb"
    (some "v1") entryPlain (by decide) (Or.inl (by decide))

/-- C5: an expired stored code (strictly earlier `expires_at` than now), with
matching `client_id` and `redirect_uri`, makes `exchange_code_for_tokens`
return `None` and evicts the code, so a second redemption attempt with the
same code also returns `None`. -/
theorem exchange_expired_code_evicted (st : OAuthState) (now now₂ : Nat)
    (na nr na₂ nr₂ code cid ru cid₂ ru₂ : String) (cv cv₂ : Option String)
    (r : AuthCodeData) (hg : dictGet st.authorization_codes code = some r)
    (hc : r.client_id = cid) (hr : r.redirect_uri = ru) (hexp : r.expires_at < now) :
    exchange_code_for_tokens st now na nr code cid ru cv =
      (none, { st with authorization_codes := dictDel st.authorization_codes code }) ∧
    dictGet (dictDel st.authorization_codes code) code = none ∧
    (exchange_code_for_tokens
        { st with authorization_codes := dictDel st.authorization_codes code }
        now₂ na₂ nr₂ code cid₂ ru₂ cv₂).1 = none := by
  refine ⟨?_, dictGet_del_self _ _, ?_⟩
  · unfold exchange_code_for_tokens
    rw [hg]
    simp [hc, hr, hexp]
  · rw [exchange_absent _ now₂ na₂ nr₂ code cid₂ ru₂ cv₂ (dictGet_del_self _ _)]

/-- A concrete authorization-code entry that expires at time 599, bound to
client `cl`, used by witnesses. -/
def entryExpired : AuthCodeData :=
  { client_id := "cl", redirect_uri := "https://app/cb", scope := "mcp:tools",
    code_challenge := none, code_challenge_method := none,
    created_at := 0, expires_at := 599 }

/-- A store holding only `("c1", entryExpired)`, used by witnesses. -/
def stExpired : OAuthState :=
  { authorization_codes := [("c1", entryExpired)], access_tokens := [], refresh_tokens := [] }

/-- C5 witness: a code whose `expires_at = 599` redeemed at `now = 600` with
the bound client and redirect fails and is removed; replay fails too. -/
theorem exchange_expired_code_evicted_witness :
    exchange_code_for_tokens stExpired 600 "at1" "rt1" "c1" "cl" "https://app/cb" none =
      (none, { stExpired with
               authorization_codes := dictDel stExpired.authorization_codes "c1" }) ∧
    dictGet (dictDel stExpired.authorization_codes "c1") "c1" = none ∧
    (exchange_code_for_tokens
        { stExpired with
          authorization_codes := dictDel stExpired.authorization_codes "c1" }
        601 "at2" "rt2" "c1" "cl" "https://app/cb" none).1 = none :=
  exchange_expired_code_evicted stExpired 600 601 "at1" "rt1" "at2" "rt2" "c1" "cl"
    "https://app/cb" "cl" "https://app/cb" none none entryExpired
    (by decide) (by decide) (by decide) (by decide)

/-- The stored entry for `code` matches the supplied client and redirect and is
expired: exactly the condition under which `exchange_code_for_tokens` reaches
its eviction branch. -/
def expiredMatch (st : OAuthState) (now : Nat) (code cid ru : String) : Prop :=
  ∃ r, dictGet st.authorization_codes code = some r ∧ r.client_id = cid ∧
       r.redirect_uri = ru ∧ r.expires_at < now

/-- On a successful exchange the resulting state is: the code deleted, the new
access and refresh tokens inserted, and the response is built from the new
token values and the stored scope. -/
theorem exchange_success_shape (st st₂ : OAuthState) (now : Nat)
    (na nr code cid ru : String) (cv : Option String) (resp : TokenResponse)
    (hx : exchange_code_for_tokens st now na nr code cid ru cv = (some resp, st₂)) :
    ∃ r, dictGet st.authorization_codes code = some r ∧
      resp = { access_token := na, token_type := "Bearer", expires_in := 3600,
               refresh_token := nr, scope := r.scope } ∧
      st₂ = { authorization_codes := dictDel st.authorization_codes code,
              access_tokens := dictSet st.access_tokens na
                { client_id := cid, scope := r.scope,
                  created_at := now, expires_at := now + 3600 },
              refresh_tokens := dictSet st.refresh_tokens nr
                { client_id := cid, scope := r.scope, created_at := now } } := by
  unfold exchange_code_for_tokens at hx
  cases hg : dictGet st.authorization_codes code with
  | none =>
    rw [hg] at hx
    dsimp only at hx
    injection hx with hres _
    exact absurd hres (by simp)
  | some r =>
    rw [hg] at hx
    dsimp only at hx
    refine ⟨r, rfl, ?_⟩
    split_ifs at hx with h1 h2 h3 h4
    · injection hx with hres _; exact absurd hres (by simp)
    · injection hx with hres _; exact absurd hres (by simp)
    · injection hx with hres _; exact absurd hres (by simp)
    · injection hx with hres _; exact absurd hres (by simp)
    · injection hx with hres hst
      injection hres with hres
      exact ⟨hres.symm, hst.symm⟩

/-- C1: at most one exchange of a given code succeeds: a successful call
removes the code from the store, and any further call with the same code on
the resulting state fails, whatever parameters it supplies. -/
theorem exchange_code_single_use (st st₂ : OAuthState) (now now₂ : Nat)
    (na nr na₂ nr₂ code cid ru cid₂ ru₂ : String) (cv cv₂ : Option String)
    (resp : TokenResponse)
    (hx : exchange_code_for_tokens st now na nr code cid ru cv = (some resp, st₂)) :
    dictGet st₂.authorization_codes code = none ∧
    (exchange_code_for_tokens st₂ now₂ na₂ nr₂ code cid₂ ru₂ cv₂).1 = none ∧
    (∀ (st₃ : OAuthState) (n₃ : Nat) (a₃ r₃ c₃ u₃ : String) (v₃ : Option String),
      dictGet st₃.authorization_codes code = none →
      exchange_code_for_tokens st₃ n₃ a₃ r₃ code c₃ u₃ v₃ = (none, st₃)) := by
  obtain ⟨r, _, _, hst⟩ := exchange_success_shape st st₂ now na nr code cid ru cv resp hx
  have habs : dictGet st₂.authorization_codes code = none := by
    rw [hst]; exact dictGet_del_self _ _
  exact ⟨habs, by rw [exchange_absent st₂ now₂ na₂ nr₂ code cid₂ ru₂ cv₂ habs],
         fun st₃ n₃ a₃ r₃ c₃ u₃ v₃ h₃ => exchange_absent st₃ n₃ a₃ r₃ code c₃ u₃ v₃ h₃⟩

/-- C1 witness: redeeming the concrete code once succeeds; the code is gone
from the resulting store and an immediate replay with the very same
parameters fails. -/
theorem exchange_code_single_use_witness :
    dictGet
      (OAuthState.mk []
        (dictSet [] "at1" { client_id := "good-client", scope := "mcp:tools",
                            created_at := 10, expires_at := 3610 })
        (dictSet [] "rt1" { client_id := "good-client", scope := "mcp:tools",
                            created_at := 10 })).authorization_codes "c1" = none ∧
    (exchange_code_for_tokens
        (OAuthState.mk []
          (dictSet [] "at1" { client_id := "good-client", scope := "mcp:tools",
                              created_at := 10, expires_at := 3610 })
          (dictSet [] "rt1" { client_id := "good-client", scope := "mcp:tools",
                              created_at := 10 }))
        20 "at2" "rt2" "c1" "good-client" "https://app/cb" (some "v1")).1 = none ∧
    (∀ (st₃ : OAuthState) (n₃ : Nat) (a₃ r₃ c₃ u₃ : String) (v₃ : Option String),
      dictGet st₃.authorization_codes "c1" = none →
      exchange_code_for_tokens st₃ n₃ a₃ r₃ "c1" c₃ u₃ v₃ = (none, st₃)) :=
  exchange_code_single_use stPlain _ 10 20 "at1" "rt1" "at2" "rt2" "c1" "good-client"
    "https://app/cb" "good-client" "https://app/cb" (some "v1") (some "v1")
    { access_token := "at1", token_type := "Bearer", expires_in := 3600,
      refresh_token := "rt1", scope := "mcp:tools" } (by decide)

/-- C2: a failing exchange creates no access or refresh token; unless the
failure is the expiry eviction (lookup, client and redirect checks passed,
code expired) the whole state — the code entry included — is unchanged; and
any call that issues tokens also deletes the code. -/
theorem exchange_failure_frame (st st₂ : OAuthState) (now : Nat)
    (na nr code cid ru : String) (cv : Option String) (res : Option TokenResponse)
    (hx : exchange_code_for_tokens st now na nr code cid ru cv = (res, st₂)) :
    (res = none →
      st₂.access_tokens = st.access_tokens ∧
      st₂.refresh_tokens = st.refresh_tokens ∧
      (expiredMatch st now code cid ru →
        st₂.authorization_codes = dictDel st.authorization_codes code) ∧
      (¬ expiredMatch st now code cid ru → st₂ = st)) ∧
    (res ≠ none →
      st₂.authorization_codes = dictDel st.authorization_codes code) := by
  unfold exchange_code_for_tokens at hx
  cases hg : dictGet st.authorization_codes code with
  | none =>
    rw [hg] at hx
    dsimp only at hx
    injection hx with hres hst
    subst hres; subst hst
    refine ⟨fun _ => ⟨rfl, rfl, fun hev => ?_, fun _ => rfl⟩, fun hne => absurd rfl hne⟩
    obtain ⟨r, hr, -⟩ := hev; rw [hg] at hr; exact absurd hr (by simp)
  | some r =>
    rw [hg] at hx
    dsimp only at hx
    have hmem : ∀ r₂, dictGet st.authorization_codes code = some r₂ → r₂ = r := by
      intro r₂ h₂; rw [hg] at h₂; exact (Option.some.inj h₂).symm
    split_ifs at hx with h1 h2 h3 h4
    · injection hx with hres hst
      subst hres; subst hst
      refine ⟨fun _ => ⟨rfl, rfl, fun hev => ?_, fun _ => rfl⟩, fun hne => absurd rfl hne⟩
      obtain ⟨r₂, hr₂, hcid, -, -⟩ := hev
      exact absurd (hmem r₂ hr₂ ▸ hcid) h1
    · injection hx with hres hst
      subst hres; subst hst
      refine ⟨fun _ => ⟨rfl, rfl, fun hev => ?_, fun _ => rfl⟩, fun hne => absurd rfl hne⟩
      obtain ⟨r₂, hr₂, -, hru, -⟩ := hev
      exact absurd (hmem r₂ hr₂ ▸ hru) h2
    · injection hx with hres hst
      subst hres; subst hst
      have hev : expiredMatch st now code cid ru :=
        ⟨r, hg, not_not.mp h1, not_not.mp h2, h3⟩
      exact ⟨fun _ => ⟨rfl, rfl, fun _ => rfl, fun hnev => absurd hev hnev⟩,
             fun hne => absurd rfl hne⟩
    · injection hx with hres hst
      subst hres; subst hst
      refine ⟨fun _ => ⟨rfl, rfl, fun hev => ?_, fun _ => rfl⟩, fun hne => absurd rfl hne⟩
      obtain ⟨r₂, hr₂, -, -, hexp⟩ := hev
      exact absurd (hmem r₂ hr₂ ▸ hexp) h3
    · injection hx with hres hst
      subst hres; subst hst
      exact ⟨fun h0 => absurd h0 (by simp), fun _ => rfl⟩

/-- C2 witness: a PKCE-verifier mismatch on a live, matching code fails and
leaves the state — the code store included — exactly as it was. -/
theorem exchange_failure_frame_witness :
    (none = (none : Option TokenResponse) →
      stPlain.access_tokens = stPlain.access_tokens ∧
      stPlain.refresh_tokens = stPlain.refresh_tokens ∧
      (expiredMatch stPlain 10 "c1" "good-client" "https://app/cb" →
        stPlain.authorization_codes = dictDel stPlain.authorization_codes "c1") ∧
      (¬ expiredMatch stPlain 10 "c1" "good-client" "https://app/cb" → stPlain = stPlain)) ∧
    ((none : Option TokenResponse) ≠ none →
      stPlain.authorization_codes = dictDel stPlain.authorization_codes "c1") :=
  exchange_failure_frame stPlain stPlain 10 "at1" "rt1" "c1" "good-client" "https://app/cb"
    (some "wrong-verifier") none (by decide)

/-- When the stored entry matches the supplied client and redirect and is not
expired, the exchange reduces to the PKCE check: failure keeps the state,
success deletes the code and mints the two tokens. -/
theorem exchange_pkce_core (st : OAuthState) (now : Nat)
    (na nr code cid ru : String) (cv : Option String) (r : AuthCodeData)
    (hg : dictGet st.authorization_codes code = some r)
    (hc : r.client_id = cid) (hr : r.redirect_uri = ru)
    (hexp : ¬ r.expires_at < now) :
    exchange_code_for_tokens st now na nr code cid ru cv =
      if pkce_check_fails r cv then (none, st)
      else
        (some { access_token := na, token_type := "Bearer", expires_in := 3600,
                refresh_token := nr, scope := r.scope },
         { authorization_codes := dictDel st.authorization_codes code,
           access_tokens := dictSet st.access_tokens na
             { client_id := cid, scope := r.scope,
               created_at := now, expires_at := now + 3600 },
           refresh_tokens := dictSet st.refresh_tokens nr
             { client_id := cid, scope := r.scope, created_at := now } }) := by
  unfold exchange_code_for_tokens
  rw [hg]
  dsimp only
  rw [if_neg (by rw [hc]; exact fun h => h rfl),
      if_neg (by rw [hr]; exact fun h => h rfl),
      if_neg hexp]

/-- With a truthy recorded challenge and a truthy verifier, the PKCE check
fails exactly when the expected value (hash for `S256`, the verifier itself
otherwise) differs from the stored challenge. -/
theorem pkce_check_fails_truthy (r : AuthCodeData) (v : String)
    (hch : optTruthy r.code_challenge = true) (hv : v ≠ "") :
    pkce_check_fails r (some v) =
      decide ((if r.code_challenge_method = some "S256" then s256_challenge v else v) ≠
              r.code_challenge.getD "") := by
  unfold pkce_check_fails
  rw [if_pos hch, if_neg (by simp [optTruthy, hv])]
  rfl

/-- With a truthy recorded challenge, a falsy verifier makes the PKCE check fail. -/
theorem pkce_check_fails_falsy_verifier (r : AuthCodeData) (cv : Option String)
    (hch : optTruthy r.code_challenge = true) (hcv : optTruthy cv = false) :
    pkce_check_fails r cv = true := by
  unfold pkce_check_fails
  rw [if_pos hch, if_pos (by simp [hcv])]

/-- With a falsy recorded challenge the PKCE check is skipped entirely. -/
theorem pkce_check_fails_no_challenge (r : AuthCodeData) (cv : Option String)
    (hch : optTruthy r.code_challenge = false) :
    pkce_check_fails r cv = false := by
  unfold pkce_check_fails
  rw [if_neg (by simp [hch])]

/-- C3: with a recorded non-empty challenge and method `S256`, on a live
matching code with a non-empty verifier, redemption succeeds exactly when
`base64url(sha256(code_verifier))` with the `=` padding stripped equals the
stored challenge; any other verifier is rejected with the state unchanged. -/
theorem exchange_pkce_s256 (st : OAuthState) (now : Nat)
    (na nr code cid ru : String) (v : String) (r : AuthCodeData)
    (hg : dictGet st.authorization_codes code = some r)
    (hc : r.client_id = cid) (hr : r.redirect_uri = ru)
    (hexp : ¬ r.expires_at < now)
    (hch : optTruthy r.code_challenge = true)
    (hm : r.code_challenge_method = some "S256") (hv : v ≠ "") :
    (s256_challenge v = r.code_challenge.getD "" →
      (exchange_code_for_tokens st now na nr code cid ru (some v)).1 =
        some { access_token := na, token_type := "Bearer", expires_in := 3600,
               refresh_token := nr, scope := r.scope }) ∧
    (s256_challenge v ≠ r.code_challenge.getD "" →
      exchange_code_for_tokens st now na nr code cid ru (some v) = (none, st)) := by
  rw [exchange_pkce_core st now na nr code cid ru (some v) r hg hc hr hexp]
  constructor
  · intro he
    rw [if_neg (by rw [pkce_check_fails_truthy r v hch hv, if_pos hm]; simp [he])]
  · intro he
    rw [if_pos (by rw [pkce_check_fails_truthy r v hch hv, if_pos hm]; simp [he])]

/-- C3 witness: on a live code bound to the literal challenge `"x"` with
method `S256`, the theorem applies to the verifier `"abc123"` with every
hypothesis checked concretely. -/
theorem exchange_pkce_s256_witness :
    (s256_challenge "abc123" = (some "x").getD "" →
      (exchange_code_for_tokens
          (OAuthState.mk
            [("c2", AuthCodeData.mk "cl" "https://app/cb" "mcp:tools"
                      (some "x") (some "S256") 0 600)] [] [])
          10 "at1" "rt1" "c2" "cl" "https://app/cb" (some "abc123")).1 =
        some { access_token := "at1", token_type := "Bearer", expires_in := 3600,
               refresh_token := "rt1", scope := "mcp:tools" }) ∧
    (s256_challenge "abc123" ≠ (some "x").getD "" →
      exchange_code_for_tokens
          (OAuthState.mk
            [("c2", AuthCodeData.mk "cl" "https://app/cb" "mcp:tools"
                      (some "x") (some "S256") 0 600)] [] [])
          10 "at1" "rt1" "c2" "cl" "https://app/cb" (some "abc123") =
        (none,
         OAuthState.mk
           [("c2", AuthCodeData.mk "cl" "https://app/cb" "mcp:tools"
                     (some "x") (some "S256") 0 600)] [] [])) :=
  exchange_pkce_s256
    (OAuthState.mk
      [("c2", AuthCodeData.mk "cl" "https://app/cb" "mcp:tools"
                (some "x") (some "S256") 0 600)] [] [])
    10 "at1" "rt1" "c2" "cl" "https://app/cb" "abc123"
    (AuthCodeData.mk "cl" "https://app/cb" "mcp:tools" (some "x") (some "S256") 0 600)
    (by decide) (by decide) (by decide) (by decide) (by decide) (by decide) (by decide)

/-- C4: with a recorded non-empty challenge, (a) under any method other than
`S256` a non-empty verifier redeems exactly when it is string-equal to the
stored challenge, and (b) whatever the method, a missing (or empty) verifier
is rejected with the state unchanged. -/
theorem exchange_pkce_plain (st : OAuthState) (now : Nat)
    (na nr code cid ru : String) (r : AuthCodeData)
    (hg : dictGet st.authorization_codes code = some r)
    (hc : r.client_id = cid) (hr : r.redirect_uri = ru)
    (hexp : ¬ r.expires_at < now)
    (hch : optTruthy r.code_challenge = true) :
    (r.code_challenge_method ≠ some "S256" →
      ∀ v : String, v ≠ "" →
        (v = r.code_challenge.getD "" →
          (exchange_code_for_tokens st now na nr code cid ru (some v)).1 =
            some { access_token := na, token_type := "Bearer", expires_in := 3600,
                   refresh_token := nr, scope := r.scope }) ∧
        (v ≠ r.code_challenge.getD "" →
          exchange_code_for_tokens st now na nr code cid ru (some v) = (none, st))) ∧
    (∀ cv : Option String, optTruthy cv = false →
      exchange_code_for_tokens st now na nr code cid ru cv = (none, st)) := by
  constructor
  · intro hm v hv
    rw [exchange_pkce_core st now na nr code cid ru (some v) r hg hc hr hexp]
    constructor
    · intro he
      rw [if_neg (by rw [pkce_check_fails_truthy r v hch hv, if_neg hm]; simp [he])]
    · intro he
      rw [if_pos (by rw [pkce_check_fails_truthy r v hch hv, if_neg hm]; simp [he])]
  · intro cv hcv
    rw [exchange_pkce_core st now na nr code cid ru cv r hg hc hr hexp]
    rw [if_pos (pkce_check_fails_falsy_verifier r cv hch hcv)]

/-- C4 witness: the theorem applied to the concrete plain-method store
`stPlain`, whose challenge is the literal `"v1"`. -/
theorem exchange_pkce_plain_witness :
    (entryPlain.code_challenge_method ≠ some "S256" →
      ∀ v : String, v ≠ "" →
        (v = entryPlain.code_challenge.getD "" →
          (exchange_code_for_tokens stPlain 10 "at1" "rt1" "c1" "good-client"
              "https://app/cb" (some v)).1 =
            some { access_token := "at1", token_type := "Bearer", expires_in := 3600,
                   refresh_token := "rt1", scope := entryPlain.scope }) ∧
        (v ≠ entryPlain.code_challenge.getD "" →
          exchange_code_for_tokens stPlain 10 "at1" "rt1" "c1" "good-client"
              "https://app/cb" (some v) = (none, stPlain))) ∧
    (∀ cv : Option String, optTruthy cv = false →
      exchange_code_for_tokens stPlain 10 "at1" "rt1" "c1" "good-client"
          "https://app/cb" cv = (none, stPlain)) :=
  exchange_pkce_plain stPlain 10 "at1" "rt1" "c1" "good-client" "https://app/cb"
    entryPlain (by decide) (by decide) (by decide) (by decide) (by decide)

/-- C9: a stored empty-string challenge is falsy, so PKCE is skipped and the
exchange can succeed with no verifier at all; conversely with a truthy stored
challenge an empty-string verifier counts as missing and is rejected. -/
theorem exchange_empty_challenge_skips_pkce (st : OAuthState) (now : Nat)
    (na nr code cid ru : String) (r : AuthCodeData)
    (hg : dictGet st.authorization_codes code = some r)
    (hc : r.client_id = cid) (hr : r.redirect_uri = ru)
    (hexp : ¬ r.expires_at < now) :
    (r.code_challenge = some "" →
      (exchange_code_for_tokens st now na nr code cid ru none).1 =
        some { access_token := na, token_type := "Bearer", expires_in := 3600,
               refresh_token := nr, scope := r.scope }) ∧
    (optTruthy r.code_challenge = true →
      exchange_code_for_tokens st now na nr code cid ru (some "") = (none, st)) := by
  constructor
  · intro hch
    rw [exchange_pkce_core st now na nr code cid ru none r hg hc hr hexp]
    rw [if_neg (by
      rw [pkce_check_fails_no_challenge r none (by simp [hch, optTruthy])]
      simp)]
  · intro hch
    rw [exchange_pkce_core st now na nr code cid ru (some "") r hg hc hr hexp]
    rw [if_pos (pkce_check_fails_falsy_verifier r (some "") hch (by simp [optTruthy]))]

/-- A concrete authorization-code entry whose recorded challenge is the empty
string, used by the C9 witness. -/
def entryEmptyChallenge : AuthCodeData :=
  { client_id := "cl", redirect_uri := "https://app/cb", scope := "mcp:tools",
    code_challenge := some "", code_challenge_method := some "plain",
    created_at := 0, expires_at := 600 }

/-- A store holding only `("c3", entryEmptyChallenge)`, used by the C9 witness. -/
def stEmptyChallenge : OAuthState :=
  { authorization_codes := [("c3", entryEmptyChallenge)],
    access_tokens := [], refresh_tokens := [] }

/-- C9 witness: the theorem applied to a store whose recorded challenge is
`""`; the first branch then yields a token with no verifier supplied. -/
theorem exchange_empty_challenge_skips_pkce_witness :
    (entryEmptyChallenge.code_challenge = some "" →
      (exchange_code_for_tokens stEmptyChallenge 10 "at1" "rt1" "c3" "cl"
          "https://app/cb" none).1 =
        some { access_token := "at1", token_type := "Bearer", expires_in := 3600,
               refresh_token := "rt1", scope := entryEmptyChallenge.scope }) ∧
    (optTruthy entryEmptyChallenge.code_challenge = true →
      exchange_code_for_tokens stEmptyChallenge 10 "at1" "rt1" "c3" "cl"
          "https://app/cb" (some "") = (none, stEmptyChallenge)) :=
  exchange_empty_challenge_skips_pkce stEmptyChallenge 10 "at1" "rt1" "c3" "cl"
    "https://app/cb" entryEmptyChallenge (by decide) (by decide) (by decide) (by decide)

/-- C7: `validate_access_token` returns `None` for any absent token; for a
stored token expired strictly before `now` it evicts the entry and returns
`None`, and a later call with the same token returns `None` again; for a
stored unexpired token it returns the stored record and changes nothing. -/
theorem validate_access_token_spec (st : OAuthState) (now now₂ : Nat) (token : String) :
    (dictGet st.access_tokens token = none →
      validate_access_token st now token = (none, st)) ∧
    (∀ td : AccessTokenData, dictGet st.access_tokens token = some td →
      (td.expires_at < now →
        validate_access_token st now token =
          (none, { st with access_tokens := dictDel st.access_tokens token }) ∧
        validate_access_token
            { st with access_tokens := dictDel st.access_tokens token } now₂ token =
          (none, { st with access_tokens := dictDel st.access_tokens token })) ∧
      (¬ td.expires_at < now →
        validate_access_token st now token = (some td, st))) := by
  constructor
  · intro h
    unfold validate_access_token
    rw [h]
  · intro td h
    constructor
    · intro hexp
      constructor
      · unfold validate_access_token
        rw [h]
        dsimp only
        rw [if_pos hexp]
      · unfold validate_access_token
        dsimp only
        rw [dictGet_del_self]
    · intro hexp
      unfold validate_access_token
      rw [h]
      dsimp only
      rw [if_neg hexp]

/-- A store holding one live and one expired access token, used by the C7
witness. -/
def stTokens : OAuthState :=
  { authorization_codes := [],
    access_tokens :=
      [("tok-live", { client_id := "cl", scope := "mcp:tools",
                      created_at := 0, expires_at := 3600 }),
       ("tok-old", { client_id := "cl", scope := "mcp:tools",
                     created_at := 0, expires_at := 5 })],
    refresh_tokens := [] }

/-- C7 witness: the theorem applied to the concrete store `stTokens` at
`now = 10`, where `tok-old` is expired. -/
theorem validate_access_token_spec_witness :
    (dictGet stTokens.access_tokens "tok-old" = none →
      validate_access_token stTokens 10 "tok-old" = (none, stTokens)) ∧
    (∀ td : AccessTokenData, dictGet stTokens.access_tokens "tok-old" = some td →
      (td.expires_at < 10 →
        validate_access_token stTokens 10 "tok-old" =
          (none, { stTokens with
                   access_tokens := dictDel stTokens.access_tokens "tok-old" }) ∧
        validate_access_token
            { stTokens with
              access_tokens := dictDel stTokens.access_tokens "tok-old" } 20 "tok-old" =
          (none, { stTokens with
                   access_tokens := dictDel stTokens.access_tokens "tok-old" })) ∧
      (¬ td.expires_at < 10 →
        validate_access_token stTokens 10 "tok-old" = (some td, stTokens))) :=
  validate_access_token_spec stTokens 10 20 "tok-old"

/-- The access-token record minted by the refresh path at time `t` for client
`cid` with scope `scope` (3600-second lifetime). -/
def mintedAccess (cid scope : String) (t : Nat) : AccessTokenData :=
  { client_id := cid, scope := scope, created_at := t, expires_at := t + 3600 }

/-- C8: a refresh with a stored token and the bound client mints a fresh
access token with the stored scope, `expires_in = 3600`, and hands back the
same refresh-token value; the refresh store is untouched, so a second call
works the same way and (the two random draws being distinct) yields a
different access token; both minted tokens validate until their own expiry;
an absent token or a foreign client gets `None` and no state change. -/
theorem refresh_access_token_spec (st : OAuthState) (now now₂ : Nat)
    (na na₂ rt cid : String) (td : RefreshTokenData)
    (hg : dictGet st.refresh_tokens rt = some td)
    (hcid : td.client_id = cid) (hna : na ≠ na₂) :
    refresh_access_token st now na rt cid =
      (some { access_token := na, token_type := "Bearer", expires_in := 3600,
              refresh_token := rt, scope := td.scope },
       { st with
         access_tokens := dictSet st.access_tokens na (mintedAccess cid td.scope now) }) ∧
    refresh_access_token
        { st with
          access_tokens := dictSet st.access_tokens na (mintedAccess cid td.scope now) }
        now₂ na₂ rt cid =
      (some { access_token := na₂, token_type := "Bearer", expires_in := 3600,
              refresh_token := rt, scope := td.scope },
       { st with
         access_tokens :=
           dictSet (dictSet st.access_tokens na (mintedAccess cid td.scope now)) na₂
             (mintedAccess cid td.scope now₂) }) ∧
    (∀ t, ¬ now + 3600 < t →
      (validate_access_token
          { st with
            access_tokens :=
              dictSet (dictSet st.access_tokens na (mintedAccess cid td.scope now)) na₂
                (mintedAccess cid td.scope now₂) } t na).1 =
        some (mintedAccess cid td.scope now)) ∧
    (∀ t, ¬ now₂ + 3600 < t →
      (validate_access_token
          { st with
            access_tokens :=
              dictSet (dictSet st.access_tokens na (mintedAccess cid td.scope now)) na₂
                (mintedAccess cid td.scope now₂) } t na₂).1 =
        some (mintedAccess cid td.scope now₂)) ∧
    (∀ rt₂, dictGet st.refresh_tokens rt₂ = none →
      refresh_access_token st now na rt₂ cid = (none, st)) ∧
    (∀ cid₂, cid₂ ≠ td.client_id →
      refresh_access_token st now na rt cid₂ = (none, st)) := by
  have hstep : ∀ (s : OAuthState) (t : Nat) (a : String),
      dictGet s.refresh_tokens rt = some td →
      refresh_access_token s t a rt cid =
        (some { access_token := a, token_type := "Bearer", expires_in := 3600,
                refresh_token := rt, scope := td.scope },
         { s with access_tokens := dictSet s.access_tokens a (mintedAccess cid td.scope t) }) := by
    intro s t a hs
    unfold refresh_access_token mintedAccess
    rw [hs]
    dsimp only
    rw [if_neg (by rw [hcid]; exact fun h => h rfl)]
  have h1 := hstep st now na hg
  have h2 := hstep
    { st with access_tokens := dictSet st.access_tokens na (mintedAccess cid td.scope now) }
    now₂ na₂ hg
  refine ⟨h1, h2, ?_, ?_, ?_, ?_⟩
  · intro t ht
    unfold validate_access_token
    dsimp only
    rw [dictGet_set_ne _ _ _ _ hna, dictGet_set_self]
    dsimp only
    rw [if_neg (by unfold mintedAccess; exact ht)]
  · intro t ht
    unfold validate_access_token
    dsimp only
    rw [dictGet_set_self]
    dsimp only
    rw [if_neg (by unfold mintedAccess; exact ht)]
  · intro rt₂ habs
    unfold refresh_access_token
    rw [habs]
  · intro cid₂ hne
    unfold refresh_access_token
    rw [hg]
    dsimp only
    rw [if_pos (fun h => hne h.symm)]

/-- The refresh-token record stored for `rt1` in the C8 witness store. -/
def rtEntry : RefreshTokenData :=
  { client_id := "cl", scope := "mcp:tools", created_at := 0 }

/-- A store holding only the refresh token `("rt1", rtEntry)`, used by the C8
witness. -/
def stRefresh : OAuthState :=
  { authorization_codes := [], access_tokens := [], refresh_tokens := [("rt1", rtEntry)] }

/-- C8 witness: the theorem applied to `stRefresh` with the two distinct
draws `na1`/`na2` at times 100 and 200. -/
theorem refresh_access_token_spec_witness :
    refresh_access_token stRefresh 100 "na1" "rt1" "cl" =
      (some { access_token := "na1", token_type := "Bearer", expires_in := 3600,
              refresh_token := "rt1", scope := "mcp:tools" },
       { stRefresh with
         access_tokens := dictSet stRefresh.access_tokens "na1"
           (mintedAccess "cl" "mcp:tools" 100) }) ∧
    refresh_access_token
        { stRefresh with
          access_tokens := dictSet stRefresh.access_tokens "na1"
            (mintedAccess "cl" "mcp:tools" 100) }
        200 "na2" "rt1" "cl" =
      (some { access_token := "na2", token_type := "Bearer", expires_in := 3600,
              refresh_token := "rt1", scope := "mcp:tools" },
       { stRefresh with
         access_tokens :=
           dictSet (dictSet stRefresh.access_tokens "na1" (mintedAccess "cl" "mcp:tools" 100))
             "na2" (mintedAccess "cl" "mcp:tools" 200) }) ∧
    (∀ t, ¬ 100 + 3600 < t →
      (validate_access_token
          { stRefresh with
            access_tokens :=
              dictSet (dictSet stRefresh.access_tokens "na1" (mintedAccess "cl" "mcp:tools" 100))
                "na2" (mintedAccess "cl" "mcp:tools" 200) } t "na1").1 =
        some (mintedAccess "cl" "mcp:tools" 100)) ∧
    (∀ t, ¬ 200 + 3600 < t →
      (validate_access_token
          { stRefresh with
            access_tokens :=
              dictSet (dictSet stRefresh.access_tokens "na1" (mintedAccess "cl" "mcp:tools" 100))
                "na2" (mintedAccess "cl" "mcp:tools" 200) } t "na2").1 =
        some (mintedAccess "cl" "mcp:tools" 200)) ∧
    (∀ rt₂, dictGet stRefresh.refresh_tokens rt₂ = none →
      refresh_access_token stRefresh 100 "na1" rt₂ "cl" = (none, stRefresh)) ∧
    (∀ cid₂, cid₂ ≠ rtEntry.client_id →
      refresh_access_token stRefresh 100 "na1" "rt1" cid₂ = (none, stRefresh)) :=
  refresh_access_token_spec stRefresh 100 200 "na1" "na2" "rt1" "cl" rtEntry
    (by decide) (by decide) (by decide)

/-- C10: a request whose Authorization header carries a Bearer token that is
neither a stored valid access token nor the configured static token is
rejected — also when no static token is configured at all — while, with no
static token configured, a request with no Bearer header is accepted. -/
theorem check_auth_bearer_gate (st : OAuthState) (now : Nat)
    (auth_token : Option String) (hdr : String) :
    (String.startsWith hdr "Bearer " = true →
      (validate_access_token st now (String.drop hdr 7)).1 = none →
      ¬ (optTruthy auth_token = true ∧ String.drop hdr 7 = auth_token.getD "") →
      (check_auth st now auth_token hdr).1 = false) ∧
    (optTruthy auth_token = false → String.startsWith hdr "Bearer " = false →
      (check_auth st now auth_token hdr).1 = true) := by
  constructor
  · intro hs hv hne
    unfold check_auth
    rw [if_pos hs]
    simp only [hv, Option.isSome_none, Bool.false_eq_true, if_false, if_neg hne]
  · intro hat hs
    unfold check_auth
    rw [if_neg (by simp [hs]), if_pos (by simp [hat])]

/-- C10 witness: with no static token configured and an empty store, the
bogus header `Bearer bogus` is rejected while an empty header is accepted. -/
theorem check_auth_bearer_gate_witness :
    (String.startsWith "Bearer bogus" "Bearer " = true →
      (validate_access_token (OAuthState.mk [] [] []) 0
          (String.drop "Bearer bogus" 7)).1 = none →
      ¬ (optTruthy none = true ∧
          String.drop "Bearer bogus" 7 = (none : Option String).getD "") →
      (check_auth (OAuthState.mk [] [] []) 0 none "Bearer bogus").1 = false) ∧
    (optTruthy none = false → String.startsWith "Bearer bogus" "Bearer " = false →
      (check_auth (OAuthState.mk [] [] []) 0 none "Bearer bogus").1 = true) :=
  check_auth_bearer_gate (OAuthState.mk [] [] []) 0 none "Bearer bogus"

end DevopsMCP
